import Mathlib

/-!
Shallow embedding of the cytorch repository.

Sources embedded:
* `src/cytorch/tensor.c` — the tensor layer: zero-filled construction, copy,
  exact-shape compatibility checks, and the elementwise binary operations
  (`_tensor_add`, `_tensor_subtract`, `_tensor_multiply`) built on
  `_tensor_broadcast_scalar_fn`.
* the variable/autograd translation unit (`src/unnamed/part_000`) — Variable
  constructors, the atomic operations `_add`, `_subtract`, `_multiply`, `_sum`
  and their backward functions, and `set_to_scalar`.

Modelling conventions:
* `tensor_entry_t` is defined in the repository's `tensor.h`, which is not part
  of the provided sources; it is modelled as `Int` (an exact scalar numeric
  type).  Every property verified here is structural (which buffer is written,
  which shape check runs, which operand a backward function reads) and does not
  depend on rounding behaviour of the scalar type.
* A C buffer read `data[index]` is modelled with `List.getD index 0`;
  the out-of-range case never arises for well-formed tensors (the buffer-length
  invariant is carried as the `wf` field of `tensor_t`, reflecting that every
  tensor the C code builds has `num_rows * num_columns` allocated entries).
* `DEBUG_ASSERT` firing (the only failure mode of the tensor layer) is
  modelled as `Option.none` / as returning the heap unchanged together with
  `none`: the assert runs before any allocation or write.
* Buffer allocation and in-place mutation, which value-level records cannot
  express, are modelled a second time at heap level (`heap_t`,
  `tensor_ref_t`): a tensor is a reference to a buffer index, `calloc` appends
  a fresh buffer, and writes update one buffer of the heap.  This layer is a
  direct rendering of the same C functions and is used for the
  ownership/no-mutation properties.
-/

abbrev tensor_entry_t : Type := Int
abbrev tensor_size_t : Type := Nat

/-- The `tensor_t` struct of `tensor.h`: a flat row-major buffer plus its
dimensions.  `wf` records the C invariant that the buffer holds exactly
`num_rows * num_columns` entries (as produced by `calloc` in `_new_tensor`). -/
structure tensor_t : Type where
  data : List tensor_entry_t
  num_rows : tensor_size_t
  num_columns : tensor_size_t
  wf : data.length = num_rows * num_columns

/-- `_tensor_get_size` from `tensor.c`. -/
def _tensor_get_size (tensor : tensor_t) : tensor_size_t :=
  tensor.num_rows * tensor.num_columns

/-- `_tensor_get_entry` (declared in `tensor.h`): flat-index buffer read
`tensor->data[index]`. -/
def _tensor_get_entry (tensor : tensor_t) (index : tensor_size_t) : tensor_entry_t :=
  tensor.data.getD index 0

/-- `_new_tensor` from `tensor.c`: `calloc` gives a zero-filled buffer. -/
def _new_tensor (num_rows num_columns : tensor_size_t) : tensor_t :=
  ⟨List.replicate (num_rows * num_columns) 0, num_rows, num_columns, by simp⟩

/-- `_new_tensor_like` from `tensor.c`. -/
def _new_tensor_like (old_tensor : tensor_t) : tensor_t :=
  _new_tensor old_tensor.num_rows old_tensor.num_columns

/-- `_new_tensor_zeros_like` from `tensor.c` (same as `_new_tensor_like`). -/
def _new_tensor_zeros_like (old_tensor : tensor_t) : tensor_t :=
  _new_tensor old_tensor.num_rows old_tensor.num_columns

/-- `_copy_tensor` from `tensor.c`: fresh like-shaped tensor, then `memcpy` of
`size` entries from the old buffer. -/
def _copy_tensor (old_tensor : tensor_t) : tensor_t :=
  ⟨(List.range (_tensor_get_size old_tensor)).map (fun index => _tensor_get_entry old_tensor index),
   old_tensor.num_rows, old_tensor.num_columns, by simp [_tensor_get_size]⟩

/-- `_tensor_exact_compatible` from `tensor.c`. -/
def _tensor_exact_compatible (left_tensor right_tensor : tensor_t) : Bool :=
  (left_tensor.num_columns == right_tensor.num_columns)
    && (left_tensor.num_rows == right_tensor.num_rows)

/-- `_tensor_broadcast_compatible` from `tensor.c` (broadcasting is a TODO in
the source; it currently just checks exact compatibility). -/
def _tensor_broadcast_compatible (left_tensor right_tensor : tensor_t) : Bool :=
  _tensor_exact_compatible left_tensor right_tensor

/-- `_scalar_add` from `tensor.c`. -/
def _scalar_add (left_scalar right_scalar : tensor_entry_t) : tensor_entry_t :=
  left_scalar + right_scalar

/-- `_scalar_multiply` from `tensor.c`. -/
def _scalar_multiply (left_scalar right_scalar : tensor_entry_t) : tensor_entry_t :=
  left_scalar * right_scalar

/-- `_scalar_subtract` from `tensor.c`. -/
def _scalar_subtract (left_scalar right_scalar : tensor_entry_t) : tensor_entry_t :=
  left_scalar - right_scalar

/-- `_tensor_broadcast_scalar_fn` from `tensor.c`: assert compatibility, then
allocate a like-shaped output and fill entry `index` with
`fn(left[index], right[index])` for every flat index.  A failed
`DEBUG_ASSERT` is modelled as `none`. -/
def _tensor_broadcast_scalar_fn (left_tensor right_tensor : tensor_t)
    (tensor_scalar_fn : tensor_entry_t → tensor_entry_t → tensor_entry_t) : Option tensor_t :=
  if _tensor_broadcast_compatible left_tensor right_tensor then
    some ⟨(List.range (_tensor_get_size left_tensor)).map
            (fun index => tensor_scalar_fn (_tensor_get_entry left_tensor index)
              (_tensor_get_entry right_tensor index)),
          left_tensor.num_rows, left_tensor.num_columns, by simp [_tensor_get_size]⟩
  else none

/-- `_tensor_add` from `tensor.c`. -/
def _tensor_add (left_tensor right_tensor : tensor_t) : Option tensor_t :=
  _tensor_broadcast_scalar_fn left_tensor right_tensor _scalar_add

/-- `_tensor_subtract` from `tensor.c`. -/
def _tensor_subtract (left_tensor right_tensor : tensor_t) : Option tensor_t :=
  _tensor_broadcast_scalar_fn left_tensor right_tensor _scalar_subtract

/-- `_tensor_multiply` from `tensor.c`. -/
def _tensor_multiply (left_tensor right_tensor : tensor_t) : Option tensor_t :=
  _tensor_broadcast_scalar_fn left_tensor right_tensor _scalar_multiply

/-- Modelled from the spec: `_tensor_multiply_by_scalar_value` (declared in
`tensor.h`, body not among the provided sources).  Spec §4.2:
`multiplyByScalarInPlace(t, k)` scales every entry by `k` in place. -/
def _tensor_multiply_by_scalar_value (tensor : tensor_t) (value : tensor_entry_t) : tensor_t :=
  ⟨tensor.data.map (fun entry => _scalar_multiply entry value),
   tensor.num_rows, tensor.num_columns, by simpa using tensor.wf⟩

/-- Modelled from the spec: `_tensor_multiply_existing` (called by
`_multiply_grad_backwards`; body not among the provided sources).  Spec §4.3
gives the multiply backward as `copy(c.gradient) ⊙ b.tensor` (elementwise), so
this in-place helper multiplies each entry of `tensor` by the matching flat
entry of `other`. -/
def _tensor_multiply_existing (tensor other : tensor_t) : tensor_t :=
  ⟨(List.range (_tensor_get_size tensor)).map
     (fun index => _scalar_multiply (_tensor_get_entry tensor index) (_tensor_get_entry other index)),
   tensor.num_rows, tensor.num_columns, by simp [_tensor_get_size]⟩

/-- Modelled from the spec: `_tensor_set_to_scalar_value` (called by
`set_to_scalar`; body not among the provided sources).  Spec §4.2:
`setAllToScalar(value)` overwrites every entry in place. -/
def _tensor_set_to_scalar_value (tensor : tensor_t) (value : tensor_entry_t) : tensor_t :=
  ⟨tensor.data.map (fun _ => value), tensor.num_rows, tensor.num_columns,
   by simpa using tensor.wf⟩

/-- Modelled from the spec: `_tensor_abs` (called by `_abs`; body not among
the provided sources).  Spec §4.2: `absMap(t)` is a new tensor with the
entrywise absolute value. -/
def _tensor_abs (tensor : tensor_t) : tensor_t :=
  ⟨tensor.data.map (fun entry => |entry|), tensor.num_rows, tensor.num_columns,
   by simpa using tensor.wf⟩

/-- Modelled from the spec: `_tensor_abs_grad` (called by
`_abs_grad_backwards`; body not among the provided sources).  Spec §4.2:
`absGrad(t)` is the entrywise derivative `sign(t[i])`, 0 at 0. -/
def _tensor_abs_grad (tensor : tensor_t) : tensor_t :=
  ⟨tensor.data.map Int.sign, tensor.num_rows, tensor.num_columns,
   by simpa using tensor.wf⟩

/-- Modelled from the spec: `_tensor_sum` (called by `_sum`; body not among the
provided sources).  Spec §4.2: `sum(t)` is a 1×1 tensor whose single entry is
the sum of all entries of `t`. -/
def _tensor_sum (tensor : tensor_t) : tensor_t :=
  ⟨[tensor.data.sum], 1, 1, by simp⟩

/-- Modelled from the spec: `_tensor_sum_grad` (called by
`_sum_grad_backwards`; body not among the provided sources).  Spec §4.2:
`sumGrad(t)` has the same shape as `t` and every entry equal to 1. -/
def _tensor_sum_grad (tensor : tensor_t) : tensor_t :=
  ⟨List.replicate (_tensor_get_size tensor) 1,
   tensor.num_rows, tensor.num_columns, by simp [_tensor_get_size]⟩

/-!
## The variable/autograd layer (`src/unnamed/part_000`)

The C code wires backward functions through raw function pointers; following
spec §9 ("reimplement as a tagged variant"), those pointers are modelled as
tags with an interpretation function, so that "the same function is wired to
both operand slots" is a decidable statement about the tags.
-/

/-- Tags for the binary backward function pointers passed to
`_binary_set_grad_meta` (one constructor per C function). -/
inductive binary_backward_fn_t : Type where
  | add_grad_backwards : binary_backward_fn_t
  | subtract_grad_backwards : binary_backward_fn_t
  | multiply_grad_backwards : binary_backward_fn_t
deriving DecidableEq

/-- Tags for the unary backward function pointers passed to
`_unary_set_grad_meta`. -/
inductive unary_backward_fn_t : Type where
  | abs_grad_backwards : unary_backward_fn_t
  | sum_grad_backwards : unary_backward_fn_t
deriving DecidableEq

mutual
/-- The `variable_t` struct of `variable.h`: a value tensor, a gradient tensor
and a GradMeta record. -/
inductive variable_t : Type where
  | mk (tensor : tensor_t) (gradient : tensor_t) (grad_meta : grad_meta_t) : variable_t

/-- Modelled from the spec: the `grad_meta_t` record (`grad.h`/`grad.c` are not
among the provided sources; its call sites `_default_grad_meta`,
`_binary_set_grad_meta`, `_unary_set_grad_meta` are).  Spec §3: GradMeta
records the operand Variables that contributed (0 for leaves, 1 for unary ops,
2 for binary ops) and, per operand, a backward function. -/
inductive grad_meta_t : Type where
  | leaf : grad_meta_t
  | binary (left_operand right_operand : variable_t)
      (left_fn right_fn : binary_backward_fn_t) : grad_meta_t
  | unary (operand : variable_t) (fn : unary_backward_fn_t) : grad_meta_t
end

def variable_t.tensor : variable_t → tensor_t
  | .mk t _ _ => t

def variable_t.gradient : variable_t → tensor_t
  | .mk _ g _ => g

def variable_t.grad_meta : variable_t → grad_meta_t
  | .mk _ _ m => m

/-- Modelled from the spec: `_default_grad_meta` (grad.c not among the provided
sources).  Spec §3: "Default (leaf) GradMeta has an empty operand list." -/
def _default_grad_meta : grad_meta_t := grad_meta_t.leaf

/-- `_new_variable_from_tensor` from the variable/autograd unit. -/
def _new_variable_from_tensor (tensor : tensor_t) : variable_t :=
  variable_t.mk tensor (_new_tensor_zeros_like tensor) _default_grad_meta

/-- `new_variable` from the variable/autograd unit, restricted to rank 2: the
variadic dimension parsing and `shape_t` construction it uses are not among
the provided sources (`shape.c` missing).  Modelled from the spec (§9:
constructor taking the explicit extents; tensors are 2-D). -/
def new_variable (num_rows num_columns : tensor_size_t) : variable_t :=
  _new_variable_from_tensor (_new_tensor num_rows num_columns)

/-- `new_variable_like` from the variable/autograd unit. -/
def new_variable_like (old_variable : variable_t) : variable_t :=
  _new_variable_from_tensor (_new_tensor_like old_variable.tensor)

/-- `copy_variable` from the variable/autograd unit. -/
def copy_variable (old_variable : variable_t) : variable_t :=
  _new_variable_from_tensor (_copy_tensor old_variable.tensor)

/-- `set_to_scalar` from the variable/autograd unit: overwrite the value
tensor's entries in place (rendered functionally: the updated Variable). -/
def set_to_scalar (var : variable_t) (value : tensor_entry_t) : variable_t :=
  variable_t.mk (_tensor_set_to_scalar_value var.tensor value) var.gradient var.grad_meta

/-- Modelled from the spec: `_binary_set_grad_meta` (grad.c not among the
provided sources).  Spec §4.3: populate the new Variable's GradMeta with
references to the two operands and their backward functions. -/
def _binary_set_grad_meta (new_var left_variable right_variable : variable_t)
    (left_fn right_fn : binary_backward_fn_t) : variable_t :=
  variable_t.mk new_var.tensor new_var.gradient
    (grad_meta_t.binary left_variable right_variable left_fn right_fn)

/-- Modelled from the spec: `_unary_set_grad_meta` (grad.c not among the
provided sources). -/
def _unary_set_grad_meta (new_var operand : variable_t) (fn : unary_backward_fn_t) : variable_t :=
  variable_t.mk new_var.tensor new_var.gradient (grad_meta_t.unary operand fn)

/-- `_add_grad_backwards` from the variable/autograd unit. -/
def _add_grad_backwards (arg other_arg child : variable_t) : tensor_t :=
  _copy_tensor child.gradient

/-- `_subtract_grad_backwards` from the variable/autograd unit. -/
def _subtract_grad_backwards (arg other_arg child : variable_t) : tensor_t :=
  _tensor_multiply_by_scalar_value (_copy_tensor child.gradient) (-1)

/-- `_multiply_grad_backwards` from the variable/autograd unit. -/
def _multiply_grad_backwards (arg other_arg child : variable_t) : tensor_t :=
  _tensor_multiply_existing (_copy_tensor child.gradient) other_arg.tensor

/-- `_abs_grad_backwards` from the variable/autograd unit. -/
def _abs_grad_backwards (arg result : variable_t) : Option tensor_t :=
  _tensor_multiply (_tensor_abs_grad arg.tensor) result.gradient

/-- `_sum_grad_backwards` from the variable/autograd unit: note it multiplies
by `result.tensor` (the child's value), exactly as the source does. -/
def _sum_grad_backwards (arg result : variable_t) : Option tensor_t :=
  _tensor_multiply (_tensor_sum_grad arg.tensor) result.tensor

/-- Interpretation of the binary backward tags: the backward driver calls the
slot's function pointer with (this operand, the sibling operand, the child),
per spec §3. -/
def binary_backward_fn_t.run :
    binary_backward_fn_t → variable_t → variable_t → variable_t → tensor_t
  | .add_grad_backwards => _add_grad_backwards
  | .subtract_grad_backwards => _subtract_grad_backwards
  | .multiply_grad_backwards => _multiply_grad_backwards

/-- Interpretation of the unary backward tags. -/
def unary_backward_fn_t.run :
    unary_backward_fn_t → variable_t → variable_t → Option tensor_t
  | .abs_grad_backwards => _abs_grad_backwards
  | .sum_grad_backwards => _sum_grad_backwards

/-- `_add` from the variable/autograd unit: both operand slots are wired to
`_add_grad_backwards`, exactly as in the source. -/
def _add (left_variable right_variable : variable_t) (use_grad : Bool) : Option variable_t :=
  (_tensor_add left_variable.tensor right_variable.tensor).map (fun new_tensor =>
    let new_var := _new_variable_from_tensor new_tensor
    if use_grad then
      _binary_set_grad_meta new_var left_variable right_variable
        binary_backward_fn_t.add_grad_backwards binary_backward_fn_t.add_grad_backwards
    else new_var)

/-- `_subtract` from the variable/autograd unit: both operand slots are wired
to `_subtract_grad_backwards`, exactly as in the source (line 129). -/
def _subtract (left_variable right_variable : variable_t) (use_grad : Bool) : Option variable_t :=
  (_tensor_subtract left_variable.tensor right_variable.tensor).map (fun new_tensor =>
    let new_var := _new_variable_from_tensor new_tensor
    if use_grad then
      _binary_set_grad_meta new_var left_variable right_variable
        binary_backward_fn_t.subtract_grad_backwards binary_backward_fn_t.subtract_grad_backwards
    else new_var)

/-- `_multiply` from the variable/autograd unit: both operand slots are wired
to `_multiply_grad_backwards`, exactly as in the source. -/
def _multiply (left_variable right_variable : variable_t) (use_grad : Bool) : Option variable_t :=
  (_tensor_multiply left_variable.tensor right_variable.tensor).map (fun new_tensor =>
    let new_var := _new_variable_from_tensor new_tensor
    if use_grad then
      _binary_set_grad_meta new_var left_variable right_variable
        binary_backward_fn_t.multiply_grad_backwards binary_backward_fn_t.multiply_grad_backwards
    else new_var)

/-- `_abs` from the variable/autograd unit.  (The public wrapper `abs` is not
redeclared: the name is taken by the standard library; it is `_abs · true`.) -/
def _abs (var : variable_t) (use_grad : Bool) : variable_t :=
  let new_var := _new_variable_from_tensor (_tensor_abs var.tensor)
  if use_grad then _unary_set_grad_meta new_var var unary_backward_fn_t.abs_grad_backwards
  else new_var

/-- `_sum` from the variable/autograd unit. -/
def _sum (var : variable_t) (use_grad : Bool) : variable_t :=
  let new_var := _new_variable_from_tensor (_tensor_sum var.tensor)
  if use_grad then _unary_set_grad_meta new_var var unary_backward_fn_t.sum_grad_backwards
  else new_var

/-- `add` from the variable/autograd unit (public entry point). -/
def add (left_variable right_variable : variable_t) : Option variable_t :=
  _add left_variable right_variable true

/-- `subtract` from the variable/autograd unit (public entry point). -/
def subtract (left_variable right_variable : variable_t) : Option variable_t :=
  _subtract left_variable right_variable true

/-- `multiply` from the variable/autograd unit (public entry point). -/
def multiply (left_variable right_variable : variable_t) : Option variable_t :=
  _multiply left_variable right_variable true

/-- `sum` from the variable/autograd unit (public entry point). -/
def sum (var : variable_t) : variable_t :=
  _sum var true

/-!
## Heap-level model of the tensor layer

The value-level records above cannot express buffer allocation and in-place
mutation, which the ownership claims are about.  Here the same C functions are
rendered over an explicit heap: a tensor is a `tensor_ref_t` holding the index
of its buffer, `calloc` appends a fresh buffer, and a write updates exactly one
buffer of the heap.
-/

structure heap_t : Type where
  bufs : List (List tensor_entry_t)

/-- Dereference a buffer (reading an unallocated index yields `[]`; all
theorems restrict to allocated references). -/
def heap_t.read (h : heap_t) (index : Nat) : List tensor_entry_t :=
  h.bufs.getD index []

/-- Overwrite one buffer of the heap. -/
def heap_t.write (h : heap_t) (index : Nat) (buffer : List tensor_entry_t) : heap_t :=
  ⟨h.bufs.set index buffer⟩

/-- `calloc`/`malloc`: append a fresh buffer, return its index. -/
def heap_t.alloc (h : heap_t) (buffer : List tensor_entry_t) : heap_t × Nat :=
  (⟨h.bufs ++ [buffer]⟩, h.bufs.length)

/-- A `tensor_t*`: dimensions plus the index of the owned buffer. -/
structure tensor_ref_t : Type where
  buf : Nat
  num_rows : tensor_size_t
  num_columns : tensor_size_t

/-- `_tensor_get_size` at heap level. -/
def tensor_ref_t.size (t : tensor_ref_t) : Nat := t.num_rows * t.num_columns

/-- Heap-level `_new_tensor` from `tensor.c`: `calloc` a zero-filled buffer. -/
def _new_tensor_h (h : heap_t) (num_rows num_columns : tensor_size_t) :
    heap_t × tensor_ref_t :=
  let p := h.alloc (List.replicate (num_rows * num_columns) 0)
  (p.1, ⟨p.2, num_rows, num_columns⟩)

/-- Heap-level `_new_tensor_like` from `tensor.c`. -/
def _new_tensor_like_h (h : heap_t) (t : tensor_ref_t) : heap_t × tensor_ref_t :=
  _new_tensor_h h t.num_rows t.num_columns

/-- Heap-level `_copy_tensor` from `tensor.c`: allocate a like-shaped tensor,
then `memcpy` `size` entries of the old buffer into the fresh one. -/
def _copy_tensor_h (h : heap_t) (t : tensor_ref_t) : heap_t × tensor_ref_t :=
  let p := _new_tensor_like_h h t
  (p.1.write p.2.buf ((List.range t.size).map (fun index => (h.read t.buf).getD index 0)),
   p.2)

/-- Heap-level `_tensor_set_entry` (declared in `tensor.h`):
`tensor->data[index] = value`. -/
def _tensor_set_entry_h (h : heap_t) (t : tensor_ref_t) (index : Nat)
    (value : tensor_entry_t) : heap_t :=
  h.write t.buf ((h.read t.buf).set index value)

/-- Heap-level `_tensor_exact_compatible` from `tensor.c`. -/
def _tensor_exact_compatible_h (l r : tensor_ref_t) : Bool :=
  (l.num_columns == r.num_columns) && (l.num_rows == r.num_rows)

/-- Heap-level `_tensor_broadcast_scalar_fn` from `tensor.c`.  The
`DEBUG_ASSERT` runs before any allocation or write, so the failure branch
returns the heap unchanged together with `none`. -/
def _tensor_broadcast_scalar_fn_h (h : heap_t) (l r : tensor_ref_t)
    (tensor_scalar_fn : tensor_entry_t → tensor_entry_t → tensor_entry_t) :
    heap_t × Option tensor_ref_t :=
  if _tensor_exact_compatible_h l r then
    let p := _new_tensor_like_h h l
    (p.1.write p.2.buf ((List.range l.size).map
        (fun index =>
          tensor_scalar_fn ((h.read l.buf).getD index 0) ((h.read r.buf).getD index 0))),
     some p.2)
  else (h, none)

/-- Heap-level `_tensor_add` from `tensor.c`. -/
def _tensor_add_h (h : heap_t) (l r : tensor_ref_t) : heap_t × Option tensor_ref_t :=
  _tensor_broadcast_scalar_fn_h h l r _scalar_add

/-- Heap-level `_tensor_subtract` from `tensor.c`. -/
def _tensor_subtract_h (h : heap_t) (l r : tensor_ref_t) : heap_t × Option tensor_ref_t :=
  _tensor_broadcast_scalar_fn_h h l r _scalar_subtract

/-- Heap-level `_tensor_multiply` from `tensor.c`. -/
def _tensor_multiply_h (h : heap_t) (l r : tensor_ref_t) : heap_t × Option tensor_ref_t :=
  _tensor_broadcast_scalar_fn_h h l r _scalar_multiply

/-!
## Helper lemmas
-/

lemma getD_map_range (f : Nat → tensor_entry_t) {n i : Nat} (h : i < n) :
    ((List.range n).map f).getD i 0 = f i := by
  rw [List.getD_eq_getElem?_getD, List.getElem?_map, List.getElem?_range h]
  rfl

lemma map_range_getD (l : List tensor_entry_t) :
    (List.range l.length).map (fun i => l.getD i 0) = l := by
  apply List.ext_getElem
  · simp
  · intro i h1 h2
    simp [List.getD_eq_getElem?_getD, List.getElem?_eq_getElem, h2]

lemma zipWith_replicate_one_mul (l : List tensor_entry_t) {n : Nat} (h : l.length = n) :
    List.zipWith _scalar_multiply (List.replicate n 1) l = l := by
  subst h
  induction l with
  | nil => rfl
  | cons x xs ih => simp [List.replicate_succ, _scalar_multiply, ih]

lemma tensor_eq_of_fields {s t : tensor_t} (hd : s.data = t.data)
    (hr : s.num_rows = t.num_rows) (hc : s.num_columns = t.num_columns) : s = t := by
  cases s
  cases t
  simp_all

/-- At value level, `_copy_tensor` reproduces its input exactly: the buffer
length invariant makes the `memcpy` of `size` entries a full copy. -/
lemma copy_tensor_eq (t : tensor_t) : _copy_tensor t = t := by
  apply tensor_eq_of_fields
  · show (List.range (_tensor_get_size t)).map (fun index => _tensor_get_entry t index) = t.data
    unfold _tensor_get_size _tensor_get_entry
    rw [← t.wf]
    exact map_range_getD t.data
  · rfl
  · rfl

lemma heap_read_write_self (h : heap_t) (i : Nat) (d : List tensor_entry_t)
    (hi : i < h.bufs.length) : (h.write i d).read i = d := by
  simp [heap_t.read, heap_t.write, List.getD_eq_getElem?_getD, List.getElem?_set_self, hi]

lemma heap_read_write_other (h : heap_t) (i j : Nat) (d : List tensor_entry_t)
    (hij : i ≠ j) : (h.write j d).read i = h.read i := by
  unfold heap_t.read heap_t.write
  rw [List.getD_eq_getElem?_getD, List.getElem?_set_ne (Ne.symm hij),
    ← List.getD_eq_getElem?_getD]

lemma heap_read_alloc_old (h : heap_t) (d : List tensor_entry_t) (i : Nat)
    (hi : i < h.bufs.length) : (h.alloc d).1.read i = h.read i := by
  unfold heap_t.read heap_t.alloc
  rw [List.getD_eq_getElem?_getD, List.getElem?_append_left hi,
    ← List.getD_eq_getElem?_getD]

/-- Reading the freshly allocated (and then fully written) buffer. -/
lemma heap_alloc_write_read_new (h : heap_t) (z d : List tensor_entry_t) :
    (((h.alloc z).1).write (h.alloc z).2 d).read h.bufs.length = d := by
  have e2 : (h.alloc z).2 = h.bufs.length := rfl
  rw [e2]
  apply heap_read_write_self
  simp [heap_t.alloc]

/-- Allocating a buffer and writing into it leaves all previously allocated
buffers unchanged. -/
lemma heap_alloc_write_read_old (h : heap_t) (z d : List tensor_entry_t) (i : Nat)
    (hi : i < h.bufs.length) :
    (((h.alloc z).1).write (h.alloc z).2 d).read i = h.read i := by
  have e2 : (h.alloc z).2 = h.bufs.length := rfl
  rw [e2, heap_read_write_other _ _ _ _ (Nat.ne_of_lt hi), heap_read_alloc_old _ _ _ hi]

@[simp] lemma variable_tensor_mk (t g m) : (variable_t.mk t g m).tensor = t := rfl

@[simp] lemma variable_gradient_mk (t g m) : (variable_t.mk t g m).gradient = g := rfl

@[simp] lemma variable_grad_meta_mk (t g m) : (variable_t.mk t g m).grad_meta = m := rfl

@[simp] lemma new_variable_from_tensor_tensor (t : tensor_t) :
    (_new_variable_from_tensor t).tensor = t := rfl

@[simp] lemma new_variable_from_tensor_gradient (t : tensor_t) :
    (_new_variable_from_tensor t).gradient = _new_tensor_zeros_like t := rfl

@[simp] lemma new_variable_from_tensor_grad_meta (t : tensor_t) :
    (_new_variable_from_tensor t).grad_meta = grad_meta_t.leaf := rfl

@[simp] lemma binary_set_grad_meta_tensor (w l r : variable_t) (f1 f2 : binary_backward_fn_t) :
    (_binary_set_grad_meta w l r f1 f2).tensor = w.tensor := rfl

@[simp] lemma binary_set_grad_meta_gradient (w l r : variable_t) (f1 f2 : binary_backward_fn_t) :
    (_binary_set_grad_meta w l r f1 f2).gradient = w.gradient := rfl

@[simp] lemma binary_set_grad_meta_grad_meta (w l r : variable_t) (f1 f2 : binary_backward_fn_t) :
    (_binary_set_grad_meta w l r f1 f2).grad_meta = grad_meta_t.binary l r f1 f2 := rfl

@[simp] lemma unary_set_grad_meta_tensor (w a : variable_t) (f : unary_backward_fn_t) :
    (_unary_set_grad_meta w a f).tensor = w.tensor := rfl

@[simp] lemma unary_set_grad_meta_gradient (w a : variable_t) (f : unary_backward_fn_t) :
    (_unary_set_grad_meta w a f).gradient = w.gradient := rfl

@[simp] lemma unary_set_grad_meta_grad_meta (w a : variable_t) (f : unary_backward_fn_t) :
    (_unary_set_grad_meta w a f).grad_meta = grad_meta_t.unary a f := rfl

@[simp] lemma sum_tensor (v : variable_t) (g : Bool) :
    (_sum v g).tensor = _tensor_sum v.tensor := by
  cases g <;> simp [_sum]

@[simp] lemma sum_gradient (v : variable_t) (g : Bool) :
    (_sum v g).gradient = _new_tensor_zeros_like (_tensor_sum v.tensor) := by
  cases g <;> simp [_sum]

/-- Extract the produced Variable of a tracked binary op: the pattern shared
by `_add`, `_subtract`, `_multiply` (forward tensor, fresh Variable, GradMeta
wiring). -/
lemma tracked_binary_variable
    (fwd : tensor_t → tensor_t → Option tensor_t)
    (f1 f2 : binary_backward_fn_t) (a b v : variable_t) (t : tensor_t)
    (hm : fwd a.tensor b.tensor = some t)
    (hv : (fwd a.tensor b.tensor).map (fun new_tensor =>
      let new_var := _new_variable_from_tensor new_tensor
      if true then _binary_set_grad_meta new_var a b f1 f2 else new_var) = some v) :
    v = _binary_set_grad_meta (_new_variable_from_tensor t) a b f1 f2 := by
  rw [hm] at hv
  simpa using hv.symm

/-- Entry formula of the multiply backward: entry `i` of the contribution is
the child's gradient entry times the sibling operand's value entry. -/
lemma multiply_grad_backwards_entry (arg other child : variable_t) (i : Nat)
    (hi : i < child.gradient.num_rows * child.gradient.num_columns) :
    (_multiply_grad_backwards arg other child).data.getD i 0
      = child.gradient.data.getD i 0 * other.tensor.data.getD i 0 := by
  unfold _multiply_grad_backwards
  rw [copy_tensor_eq]
  show ((List.range (_tensor_get_size child.gradient)).map _).getD i 0 = _
  unfold _tensor_get_size
  rw [getD_map_range _ hi]
  rfl

/-- With an all-ones child gradient of the sibling's shape, the multiply
backward returns exactly the sibling's value tensor. -/
lemma multiply_grad_backwards_ones (arg other child : variable_t)
    (hrow : child.gradient.num_rows = other.tensor.num_rows)
    (hcol : child.gradient.num_columns = other.tensor.num_columns)
    (hones : child.gradient.data
      = List.replicate (other.tensor.num_rows * other.tensor.num_columns) 1) :
    _multiply_grad_backwards arg other child = other.tensor := by
  unfold _multiply_grad_backwards
  rw [copy_tensor_eq]
  apply tensor_eq_of_fields
  · show (List.range (_tensor_get_size child.gradient)).map
        (fun index => _scalar_multiply (_tensor_get_entry child.gradient index)
          (_tensor_get_entry other.tensor index)) = other.tensor.data
    have hsz : _tensor_get_size child.gradient = other.tensor.data.length := by
      unfold _tensor_get_size
      rw [hrow, hcol, other.tensor.wf]
    rw [hsz]
    apply List.ext_getElem
    · simp
    · intro i h1 h2
      rw [List.getElem_map, List.getElem_range]
      unfold _scalar_multiply _tensor_get_entry
      have hi : i < other.tensor.data.length := by simpa using h2
      rw [hones, ← other.tensor.wf]
      rw [List.getD_eq_getElem?_getD, List.getElem?_replicate]
      simp only [hi, if_pos]
      rw [List.getD_eq_getElem?_getD, List.getElem?_eq_getElem hi]
      show 1 * other.tensor.data[i] = other.tensor.data[i]
      rw [one_mul]
  · exact hrow
  · exact hcol

/-- Success case of the heap-level elementwise kernel: with exactly matching
shapes and valid operand references, a fresh tensor (buffer index
`h.bufs.length`) is returned whose entry `i` is `fn(left[i], right[i])`, and
the operand buffers read back unchanged. -/
lemma broadcast_scalar_fn_h_ok (h : heap_t) (l r : tensor_ref_t)
    (fn : tensor_entry_t → tensor_entry_t → tensor_entry_t)
    (hl : l.buf < h.bufs.length) (hr : r.buf < h.bufs.length)
    (hrow : l.num_rows = r.num_rows) (hcol : l.num_columns = r.num_columns) :
    (_tensor_broadcast_scalar_fn_h h l r fn).2
        = some ⟨h.bufs.length, l.num_rows, l.num_columns⟩ ∧
    (∀ i, i < l.size →
      ((_tensor_broadcast_scalar_fn_h h l r fn).1.read h.bufs.length).getD i 0
        = fn ((h.read l.buf).getD i 0) ((h.read r.buf).getD i 0)) ∧
    (_tensor_broadcast_scalar_fn_h h l r fn).1.read l.buf = h.read l.buf ∧
    (_tensor_broadcast_scalar_fn_h h l r fn).1.read r.buf = h.read r.buf := by
  have hc : _tensor_exact_compatible_h l r = true := by
    simp [_tensor_exact_compatible_h, hrow, hcol]
  unfold _tensor_broadcast_scalar_fn_h _new_tensor_like_h _new_tensor_h
  rw [hc]
  simp only [if_true]
  refine ⟨rfl, ?_, ?_, ?_⟩
  · intro i hi
    rw [heap_alloc_write_read_new]
    exact getD_map_range _ hi
  · rw [heap_alloc_write_read_old _ _ _ _ hl]
  · rw [heap_alloc_write_read_old _ _ _ _ hr]

/-- Failure case of the heap-level elementwise kernel: the shape assert fires
before any allocation or write, so the result is `none` and the heap is
returned untouched; success happens exactly on equal shapes. -/
lemma broadcast_scalar_fn_h_guard (h : heap_t) (l r : tensor_ref_t)
    (fn : tensor_entry_t → tensor_entry_t → tensor_entry_t) :
    ((_tensor_broadcast_scalar_fn_h h l r fn).2.isSome
        ↔ (l.num_rows = r.num_rows ∧ l.num_columns = r.num_columns)) ∧
    (¬(l.num_rows = r.num_rows ∧ l.num_columns = r.num_columns) →
      _tensor_broadcast_scalar_fn_h h l r fn = (h, none)) := by
  by_cases hc : l.num_rows = r.num_rows ∧ l.num_columns = r.num_columns
  · have hb : _tensor_exact_compatible_h l r = true := by
      simp [_tensor_exact_compatible_h, hc.1, hc.2]
    exact ⟨by simp [_tensor_broadcast_scalar_fn_h, hb, hc], fun hcon => absurd hc hcon⟩
  · have hb : _tensor_exact_compatible_h l r = false := by
      by_cases h1 : l.num_columns = r.num_columns
      · have h2 : l.num_rows ≠ r.num_rows := fun h2 => hc ⟨h2, h1⟩
        simp [_tensor_exact_compatible_h, h1, h2]
      · simp [_tensor_exact_compatible_h, h1]
    exact ⟨by simp [_tensor_broadcast_scalar_fn_h, hb, hc],
      fun _ => by simp [_tensor_broadcast_scalar_fn_h, hb]⟩

/-- The invariant of claim C8: the gradient tensor has exactly the value
tensor's shape and every entry zero. -/
def grad_zeroed (v : variable_t) : Prop :=
  v.gradient.num_rows = v.tensor.num_rows ∧
  v.gradient.num_columns = v.tensor.num_columns ∧
  v.gradient.data = List.replicate (v.tensor.num_rows * v.tensor.num_columns) 0

lemma grad_zeroed_new_variable_from_tensor (t : tensor_t) :
    grad_zeroed (_new_variable_from_tensor t) :=
  ⟨rfl, rfl, rfl⟩

lemma grad_zeroed_tracked_binary
    (fwd : tensor_t → tensor_t → Option tensor_t) (f1 f2 : binary_backward_fn_t)
    (a b v : variable_t) (g : Bool)
    (hv : (fwd a.tensor b.tensor).map (fun new_tensor =>
      let new_var := _new_variable_from_tensor new_tensor
      if g then _binary_set_grad_meta new_var a b f1 f2 else new_var) = some v) :
    grad_zeroed v := by
  cases hm : fwd a.tensor b.tensor with
  | none => rw [hm] at hv; simp at hv
  | some t =>
      rw [hm, Option.map_some'] at hv
      have hv2 := Option.some.inj hv
      rw [← hv2]
      cases g <;> exact grad_zeroed_new_variable_from_tensor t

/-!
## Claims
-/

/-- C1: the claim states that for `subtract(a,b)` the backward attached to the
left operand returns a copy of the child's gradient (identity) and the one
attached to the right operand returns the copy times -1.  In the code,
`_subtract` wires `_subtract_grad_backwards` — the negating function — to BOTH
operand slots, so the left operand's backward negates instead of copying:
with 1×1 operands and a child whose gradient entry is 3, the function wired to
the left slot returns -3 while a copy of the child's gradient is 3. -/
theorem subtract_wires_negation_to_both_slots :
    (_subtract (_new_variable_from_tensor ⟨[2], 1, 1, rfl⟩)
        (_new_variable_from_tensor ⟨[1], 1, 1, rfl⟩) true).map variable_t.grad_meta
      = some (grad_meta_t.binary (_new_variable_from_tensor ⟨[2], 1, 1, rfl⟩)
          (_new_variable_from_tensor ⟨[1], 1, 1, rfl⟩)
          binary_backward_fn_t.subtract_grad_backwards
          binary_backward_fn_t.subtract_grad_backwards) ∧
    _subtract_grad_backwards (_new_variable_from_tensor ⟨[2], 1, 1, rfl⟩)
        (_new_variable_from_tensor ⟨[1], 1, 1, rfl⟩)
        (variable_t.mk ⟨[1], 1, 1, rfl⟩ ⟨[3], 1, 1, rfl⟩ grad_meta_t.leaf)
      = ⟨[-3], 1, 1, rfl⟩ ∧
    _copy_tensor (tensor_t.mk [3] 1 1 rfl) = ⟨[3], 1, 1, rfl⟩ :=
  ⟨rfl, rfl, rfl⟩

/-- C2: the claim states that sum's backward multiplies `sumGrad(a.tensor)` by
the child's GRADIENT tensor.  The code multiplies by the child's VALUE tensor
(`result->tensor`): with `a = [[5]]` and `c = sum(a)` (value 5, gradient
zero-initialized), `_sum_grad_backwards` returns [[5]], while the claim's
formula — the same product against the child's gradient — gives [[0]]. -/
theorem sum_backward_multiplies_by_child_value :
    _sum_grad_backwards (_new_variable_from_tensor ⟨[5], 1, 1, rfl⟩)
        (_sum (_new_variable_from_tensor ⟨[5], 1, 1, rfl⟩) true)
      = some ⟨[5], 1, 1, rfl⟩ ∧
    _tensor_multiply (_tensor_sum_grad (tensor_t.mk [5] 1 1 rfl))
        ((_sum (_new_variable_from_tensor ⟨[5], 1, 1, rfl⟩) true).gradient)
      = some ⟨[0], 1, 1, rfl⟩ :=
  ⟨rfl, rfl⟩

/-- C5: for `add(a,b)` with gradient tracking, both operand slots of the new
Variable's GradMeta are wired to the same backward function
(`_add_grad_backwards`), and that function returns a copy of the child's
gradient tensor — at value level, exactly the child's gradient. -/
theorem add_backward_identity_both_slots (a b v : variable_t)
    (hv : _add a b true = some v) :
    v.grad_meta = grad_meta_t.binary a b
        binary_backward_fn_t.add_grad_backwards binary_backward_fn_t.add_grad_backwards ∧
    ∀ arg other_arg child : variable_t,
      _add_grad_backwards arg other_arg child = child.gradient := by
  constructor
  · unfold _add at hv
    cases hm : _tensor_add a.tensor b.tensor with
    | none => rw [hm] at hv; simp at hv
    | some t =>
        rw [tracked_binary_variable _tensor_add _ _ a b v t hm hv]
        simp
  · intro arg other_arg child
    unfold _add_grad_backwards
    exact copy_tensor_eq child.gradient

/-- Witness for C5 at concrete 1×1 inputs. -/
theorem add_backward_identity_both_slots_wit :
    (variable_t.mk ⟨[5], 1, 1, rfl⟩ ⟨[0], 1, 1, rfl⟩
        (grad_meta_t.binary (_new_variable_from_tensor ⟨[2], 1, 1, rfl⟩)
          (_new_variable_from_tensor ⟨[3], 1, 1, rfl⟩)
          binary_backward_fn_t.add_grad_backwards
          binary_backward_fn_t.add_grad_backwards)).grad_meta
      = grad_meta_t.binary (_new_variable_from_tensor ⟨[2], 1, 1, rfl⟩)
          (_new_variable_from_tensor ⟨[3], 1, 1, rfl⟩)
          binary_backward_fn_t.add_grad_backwards
          binary_backward_fn_t.add_grad_backwards ∧
    ∀ arg other_arg child : variable_t,
      _add_grad_backwards arg other_arg child = child.gradient :=
  add_backward_identity_both_slots
    (_new_variable_from_tensor ⟨[2], 1, 1, rfl⟩)
    (_new_variable_from_tensor ⟨[3], 1, 1, rfl⟩) _ rfl

/-- C3: sum's backward multiplies the operand-shaped all-ones tensor
(`_tensor_sum_grad`) by the 1×1 child tensor inside `_tensor_multiply`, whose
exact-shape `DEBUG_ASSERT` (modelled as `none`) fires whenever the operand has
more than one entry; the backward returns normally exactly when the operand
itself is 1×1. -/
theorem sum_backward_asserts_unless_operand_scalar (a : variable_t) (g : Bool) :
    (1 < a.tensor.num_rows * a.tensor.num_columns →
      _sum_grad_backwards a (_sum a g) = none) ∧
    ((_sum_grad_backwards a (_sum a g)).isSome
      ↔ (a.tensor.num_rows = 1 ∧ a.tensor.num_columns = 1)) := by
  have hc : _sum_grad_backwards a (_sum a g)
      = _tensor_multiply (_tensor_sum_grad a.tensor) (_tensor_sum a.tensor) := by
    unfold _sum_grad_backwards
    rw [sum_tensor]
  have key : (_sum_grad_backwards a (_sum a g)).isSome
      ↔ (a.tensor.num_rows = 1 ∧ a.tensor.num_columns = 1) := by
    rw [hc]
    unfold _tensor_multiply _tensor_broadcast_scalar_fn _tensor_broadcast_compatible
      _tensor_exact_compatible _tensor_sum_grad _tensor_sum
    by_cases h1 : a.tensor.num_columns = 1 <;> by_cases h2 : a.tensor.num_rows = 1 <;>
      simp [h1, h2]
  refine ⟨?_, key⟩
  intro hgt
  have hne : ¬(a.tensor.num_rows = 1 ∧ a.tensor.num_columns = 1) := by
    rintro ⟨h1, h2⟩
    rw [h1, h2] at hgt
    exact absurd hgt (by norm_num)
  cases ho : _sum_grad_backwards a (_sum a g) with
  | none => rfl
  | some t => exact absurd (key.mp (by rw [ho]; rfl)) hne

/-- Witness for C3: a 2×1 operand makes the backward fail; a 1×1 operand
returns normally. -/
theorem sum_backward_asserts_unless_operand_scalar_wit :
    _sum_grad_backwards (_new_variable_from_tensor ⟨[1, 2], 2, 1, rfl⟩)
        (_sum (_new_variable_from_tensor ⟨[1, 2], 2, 1, rfl⟩) true) = none ∧
    (_sum_grad_backwards (_new_variable_from_tensor ⟨[7], 1, 1, rfl⟩)
        (_sum (_new_variable_from_tensor ⟨[7], 1, 1, rfl⟩) true)).isSome :=
  ⟨(sum_backward_asserts_unless_operand_scalar
      (_new_variable_from_tensor ⟨[1, 2], 2, 1, rfl⟩) true).1 (by decide),
   (sum_backward_asserts_unless_operand_scalar
      (_new_variable_from_tensor ⟨[7], 1, 1, rfl⟩) true).2.mpr ⟨rfl, rfl⟩⟩

/-- C4: for `multiply(a,b)` with tracking, both operand slots are wired to
`_multiply_grad_backwards`; called with (operand, sibling, child) it returns
the child's gradient multiplied elementwise by the sibling's value tensor, so
with an all-ones child gradient the left slot's contribution is exactly
`b.tensor` and the right slot's is exactly `a.tensor`. -/
theorem multiply_backward_chain_rule (a b c v : variable_t)
    (hv : _multiply a b true = some v) :
    v.grad_meta = grad_meta_t.binary a b
        binary_backward_fn_t.multiply_grad_backwards
        binary_backward_fn_t.multiply_grad_backwards ∧
    (∀ i, i < c.gradient.num_rows * c.gradient.num_columns →
      (_multiply_grad_backwards a b c).data.getD i 0
        = c.gradient.data.getD i 0 * b.tensor.data.getD i 0) ∧
    (∀ i, i < c.gradient.num_rows * c.gradient.num_columns →
      (_multiply_grad_backwards b a c).data.getD i 0
        = c.gradient.data.getD i 0 * a.tensor.data.getD i 0) ∧
    (c.gradient.num_rows = b.tensor.num_rows →
      c.gradient.num_columns = b.tensor.num_columns →
      c.gradient.data = List.replicate (b.tensor.num_rows * b.tensor.num_columns) 1 →
      _multiply_grad_backwards a b c = b.tensor) ∧
    (c.gradient.num_rows = a.tensor.num_rows →
      c.gradient.num_columns = a.tensor.num_columns →
      c.gradient.data = List.replicate (a.tensor.num_rows * a.tensor.num_columns) 1 →
      _multiply_grad_backwards b a c = a.tensor) := by
  refine ⟨?_, fun i hi => multiply_grad_backwards_entry a b c i hi,
    fun i hi => multiply_grad_backwards_entry b a c i hi,
    fun h1 h2 h3 => multiply_grad_backwards_ones a b c h1 h2 h3,
    fun h1 h2 h3 => multiply_grad_backwards_ones b a c h1 h2 h3⟩
  unfold _multiply at hv
  cases hm : _tensor_multiply a.tensor b.tensor with
  | none => rw [hm] at hv; simp at hv
  | some t =>
      rw [tracked_binary_variable _tensor_multiply _ _ a b v t hm hv]
      simp

/-- Witness for C4 at 1×2 inputs with an all-ones child gradient: the left
contribution is `b.tensor` and the right contribution is `a.tensor`. -/
theorem multiply_backward_chain_rule_wit :
    _multiply_grad_backwards (_new_variable_from_tensor ⟨[3, 4], 1, 2, rfl⟩)
        (_new_variable_from_tensor ⟨[5, 6], 1, 2, rfl⟩)
        (variable_t.mk ⟨[15, 24], 1, 2, rfl⟩ ⟨[1, 1], 1, 2, rfl⟩ grad_meta_t.leaf)
      = (_new_variable_from_tensor ⟨[5, 6], 1, 2, rfl⟩).tensor ∧
    _multiply_grad_backwards (_new_variable_from_tensor ⟨[5, 6], 1, 2, rfl⟩)
        (_new_variable_from_tensor ⟨[3, 4], 1, 2, rfl⟩)
        (variable_t.mk ⟨[15, 24], 1, 2, rfl⟩ ⟨[1, 1], 1, 2, rfl⟩ grad_meta_t.leaf)
      = (_new_variable_from_tensor ⟨[3, 4], 1, 2, rfl⟩).tensor :=
  ⟨(multiply_backward_chain_rule
      (_new_variable_from_tensor ⟨[3, 4], 1, 2, rfl⟩)
      (_new_variable_from_tensor ⟨[5, 6], 1, 2, rfl⟩)
      (variable_t.mk ⟨[15, 24], 1, 2, rfl⟩ ⟨[1, 1], 1, 2, rfl⟩ grad_meta_t.leaf)
      (variable_t.mk ⟨[15, 24], 1, 2, rfl⟩ ⟨[0, 0], 1, 2, rfl⟩
        (grad_meta_t.binary (_new_variable_from_tensor ⟨[3, 4], 1, 2, rfl⟩)
          (_new_variable_from_tensor ⟨[5, 6], 1, 2, rfl⟩)
          binary_backward_fn_t.multiply_grad_backwards
          binary_backward_fn_t.multiply_grad_backwards))
      rfl).2.2.2.1 rfl rfl rfl,
   (multiply_backward_chain_rule
      (_new_variable_from_tensor ⟨[3, 4], 1, 2, rfl⟩)
      (_new_variable_from_tensor ⟨[5, 6], 1, 2, rfl⟩)
      (variable_t.mk ⟨[15, 24], 1, 2, rfl⟩ ⟨[1, 1], 1, 2, rfl⟩ grad_meta_t.leaf)
      (variable_t.mk ⟨[15, 24], 1, 2, rfl⟩ ⟨[0, 0], 1, 2, rfl⟩
        (grad_meta_t.binary (_new_variable_from_tensor ⟨[3, 4], 1, 2, rfl⟩)
          (_new_variable_from_tensor ⟨[5, 6], 1, 2, rfl⟩)
          binary_backward_fn_t.multiply_grad_backwards
          binary_backward_fn_t.multiply_grad_backwards))
      rfl).2.2.2.2 rfl rfl rfl⟩

/-- C6: for tensors of exactly equal shapes, each elementwise binary operation
returns a NEW tensor (a freshly allocated buffer, index `h.bufs.length`) of
that shape whose flat entry `i` is `a[i] + b[i]` / `a[i] - b[i]` /
`a[i] * b[i]`, and the buffers of both input tensors read back unchanged. -/
theorem elementwise_binary_entrywise (h : heap_t) (l r : tensor_ref_t)
    (hl : l.buf < h.bufs.length) (hr : r.buf < h.bufs.length)
    (hrow : l.num_rows = r.num_rows) (hcol : l.num_columns = r.num_columns) :
    ((_tensor_add_h h l r).2 = some ⟨h.bufs.length, l.num_rows, l.num_columns⟩ ∧
      (∀ i, i < l.size → ((_tensor_add_h h l r).1.read h.bufs.length).getD i 0
        = (h.read l.buf).getD i 0 + (h.read r.buf).getD i 0) ∧
      (_tensor_add_h h l r).1.read l.buf = h.read l.buf ∧
      (_tensor_add_h h l r).1.read r.buf = h.read r.buf) ∧
    ((_tensor_subtract_h h l r).2 = some ⟨h.bufs.length, l.num_rows, l.num_columns⟩ ∧
      (∀ i, i < l.size → ((_tensor_subtract_h h l r).1.read h.bufs.length).getD i 0
        = (h.read l.buf).getD i 0 - (h.read r.buf).getD i 0) ∧
      (_tensor_subtract_h h l r).1.read l.buf = h.read l.buf ∧
      (_tensor_subtract_h h l r).1.read r.buf = h.read r.buf) ∧
    ((_tensor_multiply_h h l r).2 = some ⟨h.bufs.length, l.num_rows, l.num_columns⟩ ∧
      (∀ i, i < l.size → ((_tensor_multiply_h h l r).1.read h.bufs.length).getD i 0
        = (h.read l.buf).getD i 0 * (h.read r.buf).getD i 0) ∧
      (_tensor_multiply_h h l r).1.read l.buf = h.read l.buf ∧
      (_tensor_multiply_h h l r).1.read r.buf = h.read r.buf) :=
  ⟨broadcast_scalar_fn_h_ok h l r _scalar_add hl hr hrow hcol,
   broadcast_scalar_fn_h_ok h l r _scalar_subtract hl hr hrow hcol,
   broadcast_scalar_fn_h_ok h l r _scalar_multiply hl hr hrow hcol⟩

/-- Witness for C6 on a heap with two 1×2 tensors. -/
theorem elementwise_binary_entrywise_wit :
    (_tensor_add_h ⟨[[1, 2], [10, 20]]⟩ ⟨0, 1, 2⟩ ⟨1, 1, 2⟩).2 = some ⟨2, 1, 2⟩ ∧
    (_tensor_add_h ⟨[[1, 2], [10, 20]]⟩ ⟨0, 1, 2⟩ ⟨1, 1, 2⟩).1.read 0
      = heap_t.read ⟨[[1, 2], [10, 20]]⟩ 0 :=
  ⟨(elementwise_binary_entrywise ⟨[[1, 2], [10, 20]]⟩ ⟨0, 1, 2⟩ ⟨1, 1, 2⟩
      (by decide) (by decide) rfl rfl).1.1,
   (elementwise_binary_entrywise ⟨[[1, 2], [10, 20]]⟩ ⟨0, 1, 2⟩ ⟨1, 1, 2⟩
      (by decide) (by decide) rfl rfl).1.2.2.1⟩

/-- C7: each binary elementwise operation fails (the exact-shape
`DEBUG_ASSERT`, modelled as `none`) unless the operands' shapes are exactly
equal — no broadcasting of unequal shapes — and on failure the heap is
returned untouched, so no existing tensor suffers even partial mutation. -/
theorem elementwise_binary_shape_guard (h : heap_t) (l r : tensor_ref_t) :
    ((_tensor_add_h h l r).2.isSome
      ↔ (l.num_rows = r.num_rows ∧ l.num_columns = r.num_columns)) ∧
    ((_tensor_subtract_h h l r).2.isSome
      ↔ (l.num_rows = r.num_rows ∧ l.num_columns = r.num_columns)) ∧
    ((_tensor_multiply_h h l r).2.isSome
      ↔ (l.num_rows = r.num_rows ∧ l.num_columns = r.num_columns)) ∧
    (¬(l.num_rows = r.num_rows ∧ l.num_columns = r.num_columns) →
      _tensor_add_h h l r = (h, none) ∧ _tensor_subtract_h h l r = (h, none) ∧
      _tensor_multiply_h h l r = (h, none)) :=
  ⟨(broadcast_scalar_fn_h_guard h l r _scalar_add).1,
   (broadcast_scalar_fn_h_guard h l r _scalar_subtract).1,
   (broadcast_scalar_fn_h_guard h l r _scalar_multiply).1,
   fun hne => ⟨(broadcast_scalar_fn_h_guard h l r _scalar_add).2 hne,
     (broadcast_scalar_fn_h_guard h l r _scalar_subtract).2 hne,
     (broadcast_scalar_fn_h_guard h l r _scalar_multiply).2 hne⟩⟩

/-- Witness for C7: a 2×3 and a 3×2 tensor — all three operations fail with
the heap unchanged. -/
theorem elementwise_binary_shape_guard_wit :
    _tensor_add_h ⟨[List.replicate 6 0, List.replicate 6 0]⟩ ⟨0, 2, 3⟩ ⟨1, 3, 2⟩
      = (⟨[List.replicate 6 0, List.replicate 6 0]⟩, none) ∧
    _tensor_subtract_h ⟨[List.replicate 6 0, List.replicate 6 0]⟩ ⟨0, 2, 3⟩ ⟨1, 3, 2⟩
      = (⟨[List.replicate 6 0, List.replicate 6 0]⟩, none) ∧
    _tensor_multiply_h ⟨[List.replicate 6 0, List.replicate 6 0]⟩ ⟨0, 2, 3⟩ ⟨1, 3, 2⟩
      = (⟨[List.replicate 6 0, List.replicate 6 0]⟩, none) :=
  (elementwise_binary_shape_guard ⟨[List.replicate 6 0, List.replicate 6 0]⟩
    ⟨0, 2, 3⟩ ⟨1, 3, 2⟩).2.2.2 (by decide)

/-- C8: every Variable, at the moment it is created — by
`_new_variable_from_tensor`, `new_variable`, `new_variable_like`,
`copy_variable`, or any atomic operation with or without gradient tracking —
has a gradient tensor of its value tensor's shape with all entries zero. -/
theorem every_new_variable_gradient_zeroed :
    (∀ t : tensor_t, grad_zeroed (_new_variable_from_tensor t)) ∧
    (∀ num_rows num_columns : tensor_size_t,
      grad_zeroed (new_variable num_rows num_columns)) ∧
    (∀ v : variable_t, grad_zeroed (new_variable_like v)) ∧
    (∀ v : variable_t, grad_zeroed (copy_variable v)) ∧
    (∀ a b v : variable_t, ∀ g : Bool, _add a b g = some v → grad_zeroed v) ∧
    (∀ a b v : variable_t, ∀ g : Bool, _subtract a b g = some v → grad_zeroed v) ∧
    (∀ a b v : variable_t, ∀ g : Bool, _multiply a b g = some v → grad_zeroed v) ∧
    (∀ a : variable_t, ∀ g : Bool, grad_zeroed (_abs a g)) ∧
    (∀ a : variable_t, ∀ g : Bool, grad_zeroed (_sum a g)) := by
  refine ⟨fun t => grad_zeroed_new_variable_from_tensor t,
    fun r c => grad_zeroed_new_variable_from_tensor _,
    fun v => grad_zeroed_new_variable_from_tensor _,
    fun v => grad_zeroed_new_variable_from_tensor _,
    fun a b v g hv => grad_zeroed_tracked_binary _tensor_add _ _ a b v g hv,
    fun a b v g hv => grad_zeroed_tracked_binary _tensor_subtract _ _ a b v g hv,
    fun a b v g hv => grad_zeroed_tracked_binary _tensor_multiply _ _ a b v g hv,
    fun a g => ?_, fun a g => ?_⟩
  · cases g <;> exact grad_zeroed_new_variable_from_tensor _
  · cases g <;> exact grad_zeroed_new_variable_from_tensor _

/-- Witness for C8: the Variable produced by a tracked 1×1 add has a zeroed
gradient of its value's shape. -/
theorem every_new_variable_gradient_zeroed_wit :
    grad_zeroed (variable_t.mk ⟨[5], 1, 1, rfl⟩ ⟨[0], 1, 1, rfl⟩
      (grad_meta_t.binary (_new_variable_from_tensor ⟨[2], 1, 1, rfl⟩)
        (_new_variable_from_tensor ⟨[3], 1, 1, rfl⟩)
        binary_backward_fn_t.add_grad_backwards
        binary_backward_fn_t.add_grad_backwards)) :=
  every_new_variable_gradient_zeroed.2.2.2.2.1
    (_new_variable_from_tensor ⟨[2], 1, 1, rfl⟩)
    (_new_variable_from_tensor ⟨[3], 1, 1, rfl⟩) _ true rfl

/-- C9: `_copy_tensor` allocates a fresh buffer: the copy has the original's
shape and entrywise-equal contents, and writing any entry of the copy leaves
the original tensor's buffer completely unchanged. -/
theorem copy_tensor_independent (h : heap_t) (t : tensor_ref_t)
    (ht : t.buf < h.bufs.length) (wf : (h.read t.buf).length = t.size) :
    (_copy_tensor_h h t).2.num_rows = t.num_rows ∧
    (_copy_tensor_h h t).2.num_columns = t.num_columns ∧
    (_copy_tensor_h h t).1.read (_copy_tensor_h h t).2.buf = h.read t.buf ∧
    (_copy_tensor_h h t).1.read t.buf = h.read t.buf ∧
    (∀ i v,
      (_tensor_set_entry_h (_copy_tensor_h h t).1 (_copy_tensor_h h t).2 i v).read t.buf
        = h.read t.buf) := by
  have e2 : (_copy_tensor_h h t).2.buf = h.bufs.length := rfl
  have hold : (_copy_tensor_h h t).1.read t.buf = h.read t.buf := by
    unfold _copy_tensor_h _new_tensor_like_h _new_tensor_h
    exact heap_alloc_write_read_old _ _ _ _ ht
  have hnew : (_copy_tensor_h h t).1.read h.bufs.length = h.read t.buf := by
    unfold _copy_tensor_h _new_tensor_like_h _new_tensor_h
    rw [heap_alloc_write_read_new, ← wf]
    exact map_range_getD _
  refine ⟨rfl, rfl, ?_, hold, ?_⟩
  · rw [e2]
    exact hnew
  · intro i v
    unfold _tensor_set_entry_h
    rw [e2, heap_read_write_other _ _ _ _ (Nat.ne_of_lt ht)]
    exact hold

/-- Witness for C9: heap with one 1×2 tensor; overwriting entry 0 of the copy
leaves the original buffer equal to its initial contents. -/
theorem copy_tensor_independent_wit :
    (_copy_tensor_h ⟨[[1, 2]]⟩ ⟨0, 1, 2⟩).1.read ((_copy_tensor_h ⟨[[1, 2]]⟩ ⟨0, 1, 2⟩).2.buf)
      = heap_t.read ⟨[[1, 2]]⟩ 0 ∧
    (_tensor_set_entry_h (_copy_tensor_h ⟨[[1, 2]]⟩ ⟨0, 1, 2⟩).1
        (_copy_tensor_h ⟨[[1, 2]]⟩ ⟨0, 1, 2⟩).2 0 99).read 0
      = heap_t.read ⟨[[1, 2]]⟩ 0 :=
  ⟨(copy_tensor_independent ⟨[[1, 2]]⟩ ⟨0, 1, 2⟩ (by decide) (by decide)).2.2.1,
   (copy_tensor_independent ⟨[[1, 2]]⟩ ⟨0, 1, 2⟩ (by decide) (by decide)).2.2.2.2 0 99⟩

/-- C10: `set_to_scalar` overwrites every entry of the value tensor with the
scalar and leaves both the gradient tensor and the GradMeta unchanged. -/
theorem set_to_scalar_overwrites_value_only (var : variable_t) (k : tensor_entry_t) :
    (set_to_scalar var k).gradient = var.gradient ∧
    (set_to_scalar var k).grad_meta = var.grad_meta ∧
    (set_to_scalar var k).tensor.num_rows = var.tensor.num_rows ∧
    (set_to_scalar var k).tensor.num_columns = var.tensor.num_columns ∧
    (set_to_scalar var k).tensor.data = List.replicate var.tensor.data.length k := by
  refine ⟨rfl, rfl, rfl, rfl, ?_⟩
  show var.tensor.data.map (fun _ => k) = _
  simp [List.map_const]
